import Mathlib

/-!
Shallow embedding of the order-list retrieval, normalization and filtering
pipeline of `src/src/Screen1/Shopping/EnhancedMyOrders.tsx`, together with the
backend-configuration helpers appended to that file (`getBackendUrl`,
`getImageUrl`).  Pure computations of the source are translated into Lean
functions; the ambient React state (order list, loading and refreshing flags)
becomes an explicit state record threaded through the fetch step.
-/

/-! ## JavaScript string and truthiness helpers -/

/-- Truthiness of a `string | null` JavaScript value: `null` (here `none`) and
the empty string are falsy, every other string is truthy. -/
def truthyStr : Option String → Bool
  | none => false
  | some s => !(s == "")

/-- The JavaScript `a || b` operator on `string | null` values, as used in
`AsyncStorage.getItem(userToken) || AsyncStorage.getItem(authToken)` with the two quoted key names. -/
def jsOrStr (a b : Option String) : Option String :=
  if truthyStr a then a else b

/-- Substring search over character lists, modelling
`String.prototype.includes`. -/
def containsSeq (pat : List Char) : List Char → Bool
  | [] => pat.isEmpty
  | c :: cs => pat.isPrefixOf (c :: cs) || containsSeq pat cs

/-- The JavaScript `s.includes(pat)` test. -/
def jsIncludes (s pat : String) : Bool :=
  containsSeq pat.data s.data

/-! ## Filter Engine -/

/-- Whitespace class of the JavaScript regular-expression token `\s`
(space, tab, line feed, carriage return, vertical tab, form feed and
no-break space are the characters relevant to this code base). -/
def isJsWhitespace (c : Char) : Bool :=
  c == ' ' || c == '\t' || c == '\n' || c == '\r' ||
  c == Char.ofNat 11 || c == Char.ofNat 12 || c == Char.ofNat 160

/-- Global replacement of every maximal whitespace run by a single
underscore, modelling `replace(/\s+/g, '_')`.  The boolean argument records
whether the previously read character belonged to a whitespace run. -/
def squashWhitespaceRuns : Bool → List Char → List Char
  | _, [] => []
  | prevWs, c :: cs =>
    if isJsWhitespace c then
      if prevWs then squashWhitespaceRuns true cs
      else '_' :: squashWhitespaceRuns true cs
    else c :: squashWhitespaceRuns false cs

/-- Normalization of a filter label to a status code, as computed inside the
`filteredOrders` callback: `selectedFilter.toLowerCase().replace(/\s+/g, '_')`.
The labels of this screen are ASCII, for which `Char.toLower` agrees with the
JavaScript `toLowerCase`. -/
def normalizeLabel (s : String) : String :=
  String.mk (squashWhitespaceRuns false (s.data.map Char.toLower))

/-! ## Data model (the `Order` interface of the source) -/

structure OrderProduct where
  name : String
  price : Rat
  quantity : Nat
  images : List String
deriving DecidableEq

structure DeliveryAddress where
  name : String
  phone : String
  addressLine1 : String
  city : String
  state : String
  pincode : String
deriving DecidableEq

/-- A raw order record as it arrives on the wire (`response.data.data`
elements); the backend may omit the `products` field, hence `Option`. -/
structure RawOrder where
  _id : String
  orderId : String
  status : String
  totalAmount : Rat
  products : Option (List OrderProduct)
  deliveryAddress : DeliveryAddress
  paymentMethod : String
  orderDate : String
  createdAt : String
deriving DecidableEq

/-- A normalized order as held in component state: `products` is never
absent. -/
structure Order where
  _id : String
  orderId : String
  status : String
  totalAmount : Rat
  products : List OrderProduct
  deliveryAddress : DeliveryAddress
  paymentMethod : String
  orderDate : String
  createdAt : String
deriving DecidableEq

/-- Normalization applied to each record of a successful response:
`\x7b ...order, products: order.products || [] \x7d`.  In JavaScript an array
(empty or not) is truthy, so only an absent `products` is replaced by the
empty sequence; every other field is spread through unchanged. -/
def normalizeOrder (r : RawOrder) : Order :=
  { _id := r._id
    orderId := r.orderId
    status := r.status
    totalAmount := r.totalAmount
    products := r.products.getD []
    deliveryAddress := r.deliveryAddress
    paymentMethod := r.paymentMethod
    orderDate := r.orderDate
    createdAt := r.createdAt }

/-- The derived value `filteredOrders` of the component: identity for the
sentinel label `"All"` (a case-sensitive comparison, `selectedFilter ===` the
literal `All`), otherwise the filter keeping orders whose `status` equals the
normalized label. -/
def filteredOrders (selectedFilter : String) (orders : List Order) : List Order :=
  if selectedFilter = "All" then orders
  else orders.filter fun order => order.status == normalizeLabel selectedFilter

/-- The initial value of the `selectedFilter` state hook, `useState` applied
to the lowercase literal `all`. -/
def initialSelectedFilter : String := "all"

/-- The filter chips offered by the screen. -/
def orderFilters : List String :=
  ["All", "Order Confirmed", "Processing", "Shipped", "Out for Delivery",
   "Delivered", "Cancelled"]

/-! ## Backend Locator (`backendConfig` module appended to the source file) -/

def API_BASE_URL : String := "https://dummy-bac.onrender.com"

/-- `getBackendUrl`: always the production URL. -/
def getBackendUrl : String := API_BASE_URL

/-- `getSocketUrl` simply forwards to `getBackendUrl`. -/
def getSocketUrl : String := getBackendUrl

/-- The JavaScript `s.startsWith(pat)` test. -/
def jsStartsWith (s pat : String) : Bool :=
  pat.data.isPrefixOf s.data

/-- First-match replacement for `replace(/http:\/\/[^/]+/, repl)` (the regex
has no global flag): scan left to right for the literal `http://` followed by
at least one character other than a slash, replace the matched segment
(scheme plus authority, greedily up to the next slash or the end) by `repl`,
and return the input unchanged when no position matches. -/
def replaceFirstHttpAuthority (repl : List Char) : List Char → List Char
  | [] => []
  | c :: cs =>
    if "http://".data.isPrefixOf (c :: cs) then
      match (c :: cs).drop 7 with
      | [] => c :: replaceFirstHttpAuthority repl cs
      | r :: rest =>
        if r == '/' then c :: replaceFirstHttpAuthority repl cs
        else repl ++ List.dropWhile (fun x => !(x == '/')) (r :: rest)
    else c :: replaceFirstHttpAuthority repl cs

/-- The `getImageUrl` helper: empty input is returned empty (the `!imagePath`
guard); an input starting with `http` is either returned unchanged or, when
it mentions `localhost` or `127.0.0.1`, run through the regex replacement
above; any other input is appended to the base URL, with an `/uploads/`
segment inserted unless already present. -/
def getImageUrl (imagePath : String) : String :=
  if imagePath = "" then ""
  else
    let backendUrl := getBackendUrl
    if jsStartsWith imagePath "http" then
      if jsIncludes imagePath "localhost" || jsIncludes imagePath "127.0.0.1" then
        String.mk (replaceFirstHttpAuthority backendUrl.data imagePath.data)
      else imagePath
    else if jsStartsWith imagePath "/uploads/" then backendUrl ++ imagePath
    else if jsStartsWith imagePath "uploads/" then backendUrl ++ "/" ++ imagePath
    else backendUrl ++ "/uploads/" ++ imagePath

/-- `getProductImageUrl` forwards to `getImageUrl`. -/
def getProductImageUrl (imagePath : String) : String := getImageUrl imagePath

/-! ## Order Fetcher and ambient screen state -/

/-- The ambient React state of the screen that the fetch step reads and
writes: the order list and the loading / refreshing flags. -/
structure ScreenState where
  orders : List Order
  loading : Bool
  refreshing : Bool
deriving DecidableEq

/-- State at the first render: `useState<Order[]>([])`, `useState(true)`,
`useState(false)`. -/
def initialScreenState : ScreenState :=
  { orders := [], loading := true, refreshing := false }

/-- The Credential Store (`AsyncStorage`) keys read by `fetchOrders`. -/
structure Store where
  userToken : Option String
  authToken : Option String
  userProfile : Option String
deriving DecidableEq

/-- Field extraction performed by `JSON.parse(userProfile)` followed by a
property access: modelled as a direct scan of the serialized record for the
quoted key, returning the quoted string value following it. -/
def dropThroughFirst (pat : List Char) : List Char → Option (List Char)
  | [] => none
  | c :: cs =>
    if pat.isPrefixOf (c :: cs) then some ((c :: cs).drop pat.length)
    else dropThroughFirst pat cs

/-- Reads the string value of `key` out of a serialized JSON object, for the
accesses `userData._id` and `userData.id` of the source. -/
def extractStringField (key s : String) : Option String :=
  (dropThroughFirst ("\"" ++ key ++ "\":\"").data s.data).map
    fun r => String.mk (r.takeWhile fun c => !(c == '"'))

/-- Outcome of one `fetchOrders` run, as observable at the component
boundary. -/
inductive FetchOutcome where
  /-- The envelope carried `success: true`: the order list was replaced. -/
  | replaced : FetchOutcome
  /-- The request resolved with `success` not true: the body of the
  `if (response.data.success)` guard is skipped and nothing else happens. -/
  | ignored : FetchOutcome
  /-- An exception reached the `catch` block, carrying its message. -/
  | caught : String → FetchOutcome
deriving DecidableEq

/-- Whether an outcome is an error that reached the catch block. -/
def FetchOutcome.isError : FetchOutcome → Bool
  | .caught _ => true
  | _ => false

/-- Observable effects of one `fetchOrders` run. -/
structure FetchResult where
  outcome : FetchOutcome
  /-- How many times the network layer was invoked (0 or 1). -/
  networkCalls : Nat
  /-- How many user-visible alerts `Alert.alert` raised. -/
  alerts : Nat
  /-- The request URL when a request was issued. -/
  requestUrl : Option String
deriving DecidableEq

/-- Resolution of the awaited `axios.get`: either a parsed 2xx envelope
`\x7b success, data \x7d`, or a thrown transport / non-2xx error with a
message. -/
inductive NetResult where
  | ok : Bool → List RawOrder → NetResult
  | err : String → NetResult
deriving DecidableEq

/-- One complete run of `fetchOrders`.  `net` is the resolution the network
layer would hand back for this attempt; `capturedRefreshing` is the value of
the `refreshing` binding captured by the closure that is running (see
`capturedRefreshingAt`); `st` is the screen state the setters act on.  The
`try` block reads the credentials, throws `User not authenticated` when the
token or the profile is falsy, issues the GET, and on a successful envelope
replaces the order list with the normalized records; the `catch` block logs
and raises one alert unless `capturedRefreshing` is true; the `finally` block
clears both flags on every path. -/
def fetchOrders (store : Store) (net : NetResult) (capturedRefreshing : Bool)
    (st : ScreenState) : ScreenState × FetchResult :=
  let token := jsOrStr store.userToken store.authToken
  if !truthyStr token || !truthyStr store.userProfile then
    ({ st with loading := false, refreshing := false },
     { outcome := .caught "User not authenticated"
       networkCalls := 0
       alerts := if capturedRefreshing then 0 else 1
       requestUrl := none })
  else
    let profile := store.userProfile.getD ""
    let userId := jsOrStr (extractStringField "_id" profile)
      (extractStringField "id" profile)
    let url := getBackendUrl ++ "/api/orders/customer/" ++ userId.getD "undefined"
    match net with
    | .err m =>
      ({ st with loading := false, refreshing := false },
       { outcome := .caught m
         networkCalls := 1
         alerts := if capturedRefreshing then 0 else 1
         requestUrl := some url })
    | .ok success data =>
      if success then
        ({ st with orders := data.map normalizeOrder,
                   loading := false, refreshing := false },
         { outcome := .replaced
           networkCalls := 1
           alerts := 0
           requestUrl := some url })
      else
        ({ st with loading := false, refreshing := false },
         { outcome := .ignored
           networkCalls := 1
           alerts := 0
           requestUrl := some url })

/-- Both credentials present and truthy: the guard
`if (!token || !userProfile)` is not taken. -/
def credsPresent (store : Store) : Bool :=
  truthyStr (jsOrStr store.userToken store.authToken) &&
  truthyStr store.userProfile

/-! ## Refresh Scheduler -/

/-- The three ways a `fetchOrders` run is started. -/
inductive AttemptKind where
  /-- The call made directly by the mount effect. -/
  | initialLoad : AttemptKind
  /-- The call made by `onRefresh` after `setRefreshing(true)`. -/
  | manualRefresh : AttemptKind
  /-- A call made by the 30-second `setInterval` armed at mount. -/
  | backgroundTick : AttemptKind
deriving DecidableEq

/-- The value of the `refreshing` binding captured by the closure running
each kind of attempt.  The effect runs with an empty dependency array, so the
interval holds the `fetchOrders` closure of the first render, whose
`refreshing` is the initial `false`; the mount call is that same closure; and
`onRefresh` calls the closure of a render in which the pull gesture was
available, i.e. one where `refreshing` rendered as `false` — the
`setRefreshing(true)` preceding the call schedules a re-render but does not
change the captured binding. -/
def capturedRefreshingAt : AttemptKind → Bool
  | .initialLoad => false
  | .manualRefresh => false
  | .backgroundTick => false

/-- Component-level lifecycle state: the screen state plus whether the
component is mounted and whether the interval is armed. -/
structure AppState where
  screen : ScreenState
  mounted : Bool
  timerArmed : Bool
deriving DecidableEq

/-- State right after mount: initial render plus the effect arming the
interval (the first `fetchOrders` call is in flight). -/
def mountState : AppState :=
  { screen := initialScreenState, mounted := true, timerArmed := true }

/-- The effect cleanup run at unmount: `clearInterval(interval)` and nothing
else — the source keeps no mounted flag and no abort handle for an in-flight
request. -/
def unmountCleanup (app : AppState) : AppState :=
  { app with mounted := false, timerArmed := false }

/-- Resolution of an in-flight `fetchOrders` call: the continuation after the
`await` runs the then / catch / finally logic unconditionally — nothing in the
source consults whether the component is still mounted before invoking the
state setters. -/
def resolveFetch (store : Store) (net : NetResult) (capturedRefreshing : Bool)
    (app : AppState) : AppState :=
  { app with screen := (fetchOrders store net capturedRefreshing app.screen).1 }

/-! ## Concrete sample values used by witnesses and counterexamples -/

/-- A Credential Store holding a token and a serialized profile. -/
def sampleStore : Store :=
  { userToken := some "tok-1"
    authToken := none
    userProfile := some "\x7b\"_id\":\"u1\"\x7d" }

/-- A quiescent screen state with an already-loaded order list kept empty. -/
def quietState : ScreenState :=
  { orders := [], loading := false, refreshing := false }

/-- A concrete delivery address. -/
def sampleAddress : DeliveryAddress :=
  { name := "A B", phone := "9", addressLine1 := "1 Main St",
    city := "Chennai", state := "TN", pincode := "600001" }

/-- A concrete raw order in the `processing` state, with the `products`
field absent. -/
def sampleRawOrder : RawOrder :=
  { _id := "o1", orderId := "A1", status := "processing",
    totalAmount := 100, products := none,
    deliveryAddress := sampleAddress, paymentMethod := "cash",
    orderDate := "2025-01-01", createdAt := "2025-01-01" }

/-- The normalized form of `sampleRawOrder`. -/
def sampleOrder : Order := normalizeOrder sampleRawOrder

/-! ## Claims about the Filter Engine -/

/-- C4: for every order list, if the filter label equals the literal string
`"All"` (case-sensitive) then the visible-orders computation returns the
input list unchanged, with identical order and contents. -/
theorem filteredOrders_all_identity (orders : List Order) :
    filteredOrders "All" orders = orders := by
  simp [filteredOrders]

/-- C5: for every order list and every filter label other than `"All"`, the
visible-orders computation normalizes the label by lower-casing it and
replacing each whitespace run with an underscore, and returns exactly the
subsequence of the input whose status equals that normalized code: the result
is the filter of the input (hence a sublist, preserving relative order),
every element of the result carries the normalized status, every input
element carrying it appears in the result, and the example normalization
`"Out for Delivery" -> "out_for_delivery"` holds. -/
theorem filteredOrders_nonAll_spec (label : String) (orders : List Order)
    (h : label ≠ "All") :
    filteredOrders label orders
        = orders.filter (fun order => order.status == normalizeLabel label) ∧
    (filteredOrders label orders).Sublist orders ∧
    (∀ o ∈ filteredOrders label orders, o.status = normalizeLabel label) ∧
    (∀ o ∈ orders, o.status = normalizeLabel label →
        o ∈ filteredOrders label orders) ∧
    normalizeLabel "Out for Delivery" = "out_for_delivery" := by
  have he : filteredOrders label orders
      = orders.filter (fun order => order.status == normalizeLabel label) := by
    simp [filteredOrders, h]
  refine ⟨he, ?_, ?_, ?_, by decide⟩
  · rw [he]
    exact List.filter_sublist orders
  · intro o ho
    rw [he] at ho
    have hmem := List.mem_filter.mp ho
    simpa using hmem.2
  · intro o ho hs
    rw [he]
    exact List.mem_filter.mpr ⟨ho, by simpa using hs⟩

/-- Witness for C5 at the label `"Processing"` and a one-order list. -/
theorem filteredOrders_nonAll_spec_witness :
    (("Processing" : String) ≠ "All") ∧
    (filteredOrders "Processing" [sampleOrder]
        = [sampleOrder].filter
            (fun order => order.status == normalizeLabel "Processing") ∧
     (filteredOrders "Processing" [sampleOrder]).Sublist [sampleOrder] ∧
     (∀ o ∈ filteredOrders "Processing" [sampleOrder],
        o.status = normalizeLabel "Processing") ∧
     (∀ o ∈ [sampleOrder], o.status = normalizeLabel "Processing" →
        o ∈ filteredOrders "Processing" [sampleOrder]) ∧
     normalizeLabel "Out for Delivery" = "out_for_delivery") :=
  ⟨by decide, filteredOrders_nonAll_spec "Processing" [sampleOrder] (by decide)⟩

/-- C10: the initial filter label is the lowercase string `"all"`, which is
not the case-sensitive sentinel `"All"`; before any user selection the
visible list is therefore computed by the filtering branch with normalized
code `"all"` and equals the subsequence of orders whose status is literally
`"all"` — the empty list whenever no fetched order carries that status. -/
theorem initialFilter_status_all (orders : List Order) :
    initialSelectedFilter = "all" ∧
    initialSelectedFilter ≠ "All" ∧
    filteredOrders initialSelectedFilter orders
      = orders.filter (fun order => order.status == "all") ∧
    ((orders.all fun order => !(order.status == "all")) = true →
      filteredOrders initialSelectedFilter orders = []) := by
  have hn : normalizeLabel "all" = "all" := by decide
  have he : filteredOrders initialSelectedFilter orders
      = orders.filter (fun order => order.status == "all") := by
    simp [filteredOrders, initialSelectedFilter, hn]
  refine ⟨rfl, by decide, he, ?_⟩
  intro hall
  rw [he, List.filter_eq_nil_iff]
  intro a ha
  have hcar := List.all_eq_true.mp hall a ha
  simpa using hcar

/-- Witness for C10: a screen holding one order in the `processing` state
shows the empty list before any user filter selection. -/
theorem initialFilter_status_all_witness :
    filteredOrders initialSelectedFilter [sampleOrder] = [] :=
  (initialFilter_status_all [sampleOrder]).2.2.2 (by decide)

/-! ## Claims about response normalization -/

/-- C8: for every raw order record of a successful response, normalization
substitutes an empty sequence for a missing `products` field and passes all
other fields through unchanged from the wire format; the normalized `Order`
type carries `products` as a plain (non-optional) sequence. -/
theorem normalizeOrder_products_default (raw : RawOrder) :
    (normalizeOrder raw).products = raw.products.getD [] ∧
    (normalizeOrder raw)._id = raw._id ∧
    (normalizeOrder raw).orderId = raw.orderId ∧
    (normalizeOrder raw).status = raw.status ∧
    (normalizeOrder raw).totalAmount = raw.totalAmount ∧
    (normalizeOrder raw).deliveryAddress = raw.deliveryAddress ∧
    (normalizeOrder raw).paymentMethod = raw.paymentMethod ∧
    (normalizeOrder raw).orderDate = raw.orderDate ∧
    (normalizeOrder raw).createdAt = raw.createdAt ∧
    (normalizeOrder { raw with products := none }).products = [] :=
  ⟨rfl, rfl, rfl, rfl, rfl, rfl, rfl, rfl, rfl, rfl⟩

/-! ## Claims about the Order Fetcher -/

/-- C6: if either the authentication token (the `userToken` / `authToken`
fallback chain) or the stored user profile is absent from the Credential
Store, `fetchOrders` fails immediately with the `User not authenticated`
error, the network-call count stays zero, and the order list is untouched. -/
theorem fetchOrders_unauthenticated (store : Store) (net : NetResult)
    (cap : Bool) (st : ScreenState)
    (h : truthyStr (jsOrStr store.userToken store.authToken) = false ∨
         truthyStr store.userProfile = false) :
    (fetchOrders store net cap st).2.outcome = .caught "User not authenticated" ∧
    (fetchOrders store net cap st).2.networkCalls = 0 ∧
    (fetchOrders store net cap st).1.orders = st.orders := by
  have hcond : (!truthyStr (jsOrStr store.userToken store.authToken)
      || !truthyStr store.userProfile) = true := by
    rcases h with h | h <;> simp [h]
  simp [fetchOrders, hcond]

/-- Witness for C6: an empty Credential Store. -/
theorem fetchOrders_unauthenticated_witness :
    (fetchOrders ⟨none, none, none⟩ (.ok true []) false quietState).2.outcome
        = .caught "User not authenticated" ∧
    (fetchOrders ⟨none, none, none⟩ (.ok true []) false quietState).2.networkCalls
        = 0 ∧
    (fetchOrders ⟨none, none, none⟩ (.ok true []) false quietState).1.orders
        = quietState.orders :=
  fetchOrders_unauthenticated ⟨none, none, none⟩ (.ok true []) false quietState
    (Or.inl (by decide))

/-- C2 counterexample: a response whose envelope carries `success: false` is
not converted into any error — the outcome is the silent `ignored` case, no
alert is raised and the order list is untouched, refuting the claim that a
non-success envelope yields a `FetchError` carrying a message. -/
theorem nonSuccess_envelope_silent :
    FetchOutcome.isError
        (fetchOrders sampleStore (.ok false []) false quietState).2.outcome
      = false ∧
    (fetchOrders sampleStore (.ok false []) false quietState).2.alerts = 0 ∧
    (fetchOrders sampleStore (.ok false []) false quietState).1.orders
      = quietState.orders := by
  decide

/-- C2 amended: with credentials present, a thrown transport error reaches
the catch block carrying its message, while a response whose envelope has
`success` not true is silently ignored — no error, no alert, order list
untouched. -/
theorem fetchOrders_envelope_spec (store : Store) (st : ScreenState)
    (cap : Bool) (m : String) (data : List RawOrder)
    (hc : credsPresent store = true) :
    (fetchOrders store (.err m) cap st).2.outcome = .caught m ∧
    (fetchOrders store (.ok false data) cap st).2.outcome = .ignored ∧
    (fetchOrders store (.ok false data) cap st).2.alerts = 0 ∧
    (fetchOrders store (.ok false data) cap st).1.orders = st.orders := by
  have hpair : truthyStr (jsOrStr store.userToken store.authToken) = true ∧
      truthyStr store.userProfile = true := by
    simpa [credsPresent] using hc
  have hcond : (!truthyStr (jsOrStr store.userToken store.authToken)
      || !truthyStr store.userProfile) = false := by
    simp [hpair.1, hpair.2]
  simp [fetchOrders, hcond]

/-- Witness for the amended C2 at concrete inputs. -/
theorem fetchOrders_envelope_spec_witness :
    (fetchOrders sampleStore (.err "Network Error") false quietState).2.outcome
        = .caught "Network Error" ∧
    (fetchOrders sampleStore (.ok false []) false quietState).2.outcome
        = .ignored ∧
    (fetchOrders sampleStore (.ok false []) false quietState).2.alerts = 0 ∧
    (fetchOrders sampleStore (.ok false []) false quietState).1.orders
        = quietState.orders :=
  fetchOrders_envelope_spec sampleStore quietState false "Network Error" []
    (by decide)

/-- C7: every fetch attempt is atomic with respect to the order list — a
successful envelope fully replaces the list with the normalized response
data, and every other outcome (missing credentials, transport error,
non-success envelope) leaves the previously stored list untouched. -/
theorem fetchOrders_atomic_replace (store : Store) (net : NetResult)
    (cap : Bool) (st : ScreenState) :
    (∀ data, net = .ok true data → credsPresent store = true →
      (fetchOrders store net cap st).1.orders = data.map normalizeOrder) ∧
    ((fetchOrders store net cap st).2.outcome ≠ .replaced →
      (fetchOrders store net cap st).1.orders = st.orders) := by
  constructor
  · rintro data rfl hc
    have hpair : truthyStr (jsOrStr store.userToken store.authToken) = true ∧
        truthyStr store.userProfile = true := by
      simpa [credsPresent] using hc
    have hcond : (!truthyStr (jsOrStr store.userToken store.authToken)
        || !truthyStr store.userProfile) = false := by
      simp [hpair.1, hpair.2]
    simp [fetchOrders, hcond]
  · intro hne
    cases hb : (!truthyStr (jsOrStr store.userToken store.authToken)
        || !truthyStr store.userProfile) with
    | true => simp [fetchOrders, hb]
    | false =>
      cases net with
      | err m => simp [fetchOrders, hb]
      | ok success data =>
        cases success with
        | true => simp [fetchOrders, hb] at hne
        | false => simp [fetchOrders, hb]

/-- Witness for C7: a successful envelope replaces the list with the
normalized records. -/
theorem fetchOrders_atomic_replace_witness :
    (fetchOrders sampleStore (.ok true [sampleRawOrder]) false quietState).1.orders
      = [sampleRawOrder].map normalizeOrder :=
  (fetchOrders_atomic_replace sampleStore (.ok true [sampleRawOrder]) false
      quietState).1 [sampleRawOrder] rfl (by decide)

/-! ## Claims about the Refresh Scheduler failure surfacing and teardown -/

/-- C1: evaluation of the error path at each attempt kind.  Because every
closure that can run `fetchOrders` captured `refreshing = false` (see
`capturedRefreshingAt`), a failing fetch raises exactly one alert for the
initial load and for a manual refresh — but it also raises one for an
unattended background tick, where the claim (and the source comment above
the guard) requires the failure to be only logged. -/
theorem backgroundTick_failure_alerts :
    (fetchOrders sampleStore (.err "Network Error")
        (capturedRefreshingAt .backgroundTick) quietState).2.alerts = 1 ∧
    (fetchOrders sampleStore (.err "Network Error")
        (capturedRefreshingAt .manualRefresh) quietState).2.alerts = 1 ∧
    (fetchOrders sampleStore (.err "Network Error")
        (capturedRefreshingAt .initialLoad) initialScreenState).2.alerts = 1 := by
  decide

/-- C3: evaluation of an unmount race.  The cleanup only clears the interval;
when the in-flight fetch later resolves, the continuation still writes the
flags of the destroyed view state — here the `loading` flag of the unmounted
screen changes from `true` to `false`, so a state update is applied after
unmount, contradicting the claim that none is. -/
theorem unmount_stale_write :
    (unmountCleanup mountState).mounted = false ∧
    (unmountCleanup mountState).screen.loading = true ∧
    (resolveFetch sampleStore (.err "Network Error") false
        (unmountCleanup mountState)).mounted = false ∧
    (resolveFetch sampleStore (.err "Network Error") false
        (unmountCleanup mountState)).screen.loading = false ∧
    (resolveFetch sampleStore (.err "Network Error") false
        (unmountCleanup mountState)).screen
      ≠ (unmountCleanup mountState).screen := by
  decide

/-! ## Claims about image URL resolution -/

/-- C9 counterexample: an `https` URL with a `localhost` origin is returned
unchanged — the regex only matches a literal `http://` authority, so the
localhost origin is not rewritten to the configured production origin, and
the result does not start with the production base URL. -/
theorem getImageUrl_localhost_not_rewritten :
    getImageUrl "https://localhost/img.png" = "https://localhost/img.png" ∧
    jsIncludes (getImageUrl "https://localhost/img.png") "localhost" = true ∧
    jsStartsWith (getImageUrl "https://localhost/img.png") API_BASE_URL
      = false := by
  decide

/-- Prefix fact used to show relative paths resolve to absolute URLs. -/
theorem http_isPrefix_base_append (l : List Char) :
    "http".data <+: ("https://dummy-bac.onrender.com".data ++ l) :=
  ⟨"s://dummy-bac.onrender.com".data ++ l, by rw [← List.append_assoc]; rfl⟩

/-- C9 amended: the empty path yields the empty string; every non-empty path
not starting with `http` resolves to an absolute URL under the production
base — appended as-is when prefixed `/uploads/`, after a `/` when prefixed
`uploads/`, and prefixed `/uploads/` otherwise; a path starting with `http`
that mentions neither `localhost` nor `127.0.0.1` is returned unchanged; and
for paths starting with `http` that do mention them, only a literal
`http://` authority is rewritten to the production origin — an `https`
localhost URL is returned unchanged. -/
theorem getImageUrl_resolution_spec (p : String) :
    (p = "" → getImageUrl p = "") ∧
    (p ≠ "" → jsStartsWith p "http" = false →
      "http".data <+: (getImageUrl p).data) ∧
    (p ≠ "" → jsStartsWith p "http" = false →
      jsStartsWith p "/uploads/" = true →
      getImageUrl p = getBackendUrl ++ p) ∧
    (p ≠ "" → jsStartsWith p "http" = false →
      jsStartsWith p "/uploads/" = false → jsStartsWith p "uploads/" = true →
      getImageUrl p = getBackendUrl ++ "/" ++ p) ∧
    (p ≠ "" → jsStartsWith p "http" = false →
      jsStartsWith p "/uploads/" = false → jsStartsWith p "uploads/" = false →
      getImageUrl p = getBackendUrl ++ "/uploads/" ++ p) ∧
    (p ≠ "" → jsStartsWith p "http" = true →
      (jsIncludes p "localhost" || jsIncludes p "127.0.0.1") = false →
      getImageUrl p = p) ∧
    getImageUrl "http://localhost:5000/uploads/a.png"
      = "https://dummy-bac.onrender.com/uploads/a.png" ∧
    getImageUrl "https://localhost/img.png" = "https://localhost/img.png" := by
  refine ⟨?_, ?_, ?_, ?_, ?_, ?_, by decide, by decide⟩
  · intro h0
    simp [getImageUrl, h0]
  · intro h0 h1
    cases h2 : jsStartsWith p "/uploads/" with
    | true =>
      have he : getImageUrl p = getBackendUrl ++ p := by
        simp [getImageUrl, h0, h1, h2]
      rw [he, String.data_append]
      exact http_isPrefix_base_append p.data
    | false =>
      cases h3 : jsStartsWith p "uploads/" with
      | true =>
        have he : getImageUrl p = getBackendUrl ++ "/" ++ p := by
          simp [getImageUrl, h0, h1, h2, h3]
        rw [he, String.data_append]
        refine List.IsPrefix.trans ?_ ⟨p.data, rfl⟩
        exact ⟨"s://dummy-bac.onrender.com/".data, by rfl⟩
      | false =>
        have he : getImageUrl p = getBackendUrl ++ "/uploads/" ++ p := by
          simp [getImageUrl, h0, h1, h2, h3]
        rw [he, String.data_append]
        refine List.IsPrefix.trans ?_ ⟨p.data, rfl⟩
        exact ⟨"s://dummy-bac.onrender.com/uploads/".data, by rfl⟩
  · intro h0 h1 h2
    simp [getImageUrl, h0, h1, h2]
  · intro h0 h1 h2 h3
    simp [getImageUrl, h0, h1, h2, h3]
  · intro h0 h1 h2 h3
    simp [getImageUrl, h0, h1, h2, h3]
  · intro h0 h1 h2
    simp [getImageUrl, h0, h1, h2]

/-- Witness for the amended C9: a bare file name is resolved under the
production base URL with an `/uploads/` segment. -/
theorem getImageUrl_resolution_spec_witness :
    getImageUrl "pic.png" = getBackendUrl ++ "/uploads/" ++ "pic.png" :=
  (getImageUrl_resolution_spec "pic.png").2.2.2.2.1 (by decide) (by decide)
    (by decide) (by decide)
